import Mathlib

/-
Verification of the Turtle Adventure game core (src/turtle_adventure.py).

The game's entities are shallowly embedded: positions are rationals or
integers where the code only ever produces such values, and reals where
the player's Euclidean movement demands them; random draws are supplied
by an explicit oracle, and each update() method becomes a pure
state-transforming function mirroring the Python statement by statement.
-/

set_option maxRecDepth 100000

namespace TurtleAdventure

/-! ## Enemy.hits_player (src/turtle_adventure.py lines 237-245)

Strict axis-aligned box test of the player's point against the enemy's
size-centered square. -/

def hits_player (ex ey size px py : ℚ) : Bool :=
  decide ((ex - size/2 < px ∧ px < ex + size/2)
          ∧ (ey - size/2 < py ∧ py < ey + size/2))

/-! ## Home.contains and Player.update (src/turtle_adventure.py lines
128-134 and 173-183)

The player moves with turtle primitives: setheading(towards(wx, wy))
followed by forward(speed) advances the position by speed along the
straight line toward the waypoint; when the player is exactly at the
waypoint, towards yields heading 0 (atan2(0, 0) = 0) and forward steps
speed units along the x axis.  Distances are Euclidean, so the model
lives in ℝ. -/

/-- Home.contains (lines 128-134): inclusive axis-aligned box test. -/
def homeContains (hx hy s x y : ℝ) : Prop :=
  hx - s/2 ≤ x ∧ x ≤ hx + s/2 ∧ hy - s/2 ≤ y ∧ y ≤ hy + s/2

/-- turtle.distance: Euclidean distance between two points. -/
noncomputable def dist (px py qx qy : ℝ) : ℝ :=
  Real.sqrt ((qx - px)^2 + (qy - py)^2)

/-- setheading(towards(wx, wy)) then forward(speed): advance speed units
toward (wx, wy), or speed units along heading 0 (the positive x axis)
when already exactly there. -/
noncomputable def forwardTowards (px py wx wy speed : ℝ) : ℝ × ℝ :=
  if dist px py wx wy = 0 then (px + speed, py)
  else (px + speed * (wx - px) / dist px py wx wy,
        py + speed * (wy - py) / dist px py wx wy)

/-- The state Player.update reads and writes: player position and speed,
waypoint position and active flag, Home geometry, and whether
game_over_win has been signalled. -/
structure PlayerGame where
  px : ℝ
  py : ℝ
  speed : ℝ
  wx : ℝ
  wy : ℝ
  wactive : Bool
  hx : ℝ
  hy : ℝ
  hsize : ℝ
  won : Bool

open Classical in
/-- Player.update (lines 173-183): signal win if Home contains the
player, then — with no early return — move toward the waypoint while it
is active, deactivating it when the post-move distance to it is below
speed. -/
noncomputable def playerUpdate (g : PlayerGame) : PlayerGame :=
  let g1 := if homeContains g.hx g.hy g.hsize g.px g.py
            then { g with won := true } else g
  if g1.wactive then
    let p := forwardTowards g1.px g1.py g1.wx g1.wy g1.speed
    if dist p.1 p.2 g1.wx g1.wy < g1.speed then
      { g1 with px := p.1, py := p.2, wactive := false }
    else
      { g1 with px := p.1, py := p.2 }
  else g1

/-- The player state of the C5 scenario: player at Home's center
(700, 250), Home of size 20, speed 5, waypoint active at (780, 250). -/
def gameC5 : PlayerGame :=
  ⟨700, 250, 5, 780, 250, true, 700, 250, 20, false⟩

/-- The player state of the C6 edge case: player exactly at the active
waypoint (100, 100), speed 5, Home at (700, 250) of size 20. -/
def gameC6 : PlayerGame :=
  ⟨100, 100, 5, 100, 100, true, 700, 250, 20, false⟩

/-- The player state of the C6 witness: player at (777, 250), waypoint
active at (780, 250) at distance 3 ≤ speed 5, Home at (700, 250). -/
def gameC6w : PlayerGame :=
  ⟨777, 250, 5, 780, 250, true, 700, 250, 20, false⟩

/-! ## SummonEnemy.update (src/turtle_adventure.py lines 434-448)

The summoner's speed is set to 1 in the constructor (line 429) and is
never modified; each axis moves by math.floor(speed) using an
if x >= px / elif x == px / else cascade. -/

structure SummonState where
  x : ℚ
  y : ℚ
  speed : ℚ
deriving DecidableEq, Repr

def summonUpdate (st : SummonState) (px py : ℚ) : SummonState :=
  let step : ℚ := (⌊st.speed⌋ : ℤ)
  let x := if st.x ≥ px then st.x - step
           else if st.x = px then st.x
           else st.x + step
  let y := if st.y ≥ py then st.y - step
           else if st.y = py then st.y
           else st.y + step
  { st with x := x, y := y }

/-! ## Minion enemies (src/turtle_adventure.py lines 456-549)

Both minion kinds accelerate by 0.4 per frame, move according to the
direction choices drawn at construction, check the player hit, then run
two identical if/elif boundary blocks that negate the speed. -/

inductive VChoice where
  | up
  | down
deriving DecidableEq, Repr

inductive HChoice where
  | right
  | left
deriving DecidableEq, Repr

inductive DirChoice where
  | up
  | down
  | right
  | left
deriving DecidableEq, Repr

/-- The x-boundary block shared by both minion updates
(lines 489-492 and 536-539). -/
def flipX (x sp : ℚ) : ℚ :=
  if x ≥ 800 then -sp else if x ≤ 0 then -sp else sp

/-- The y-boundary block shared by both minion updates
(lines 493-496 and 540-543). -/
def flipY (y sp : ℚ) : ℚ :=
  if y ≥ 500 then -sp else if y ≤ 0 then -sp else sp

structure DiagMinionState where
  x : ℚ
  y : ℚ
  speed : ℚ
  size : ℚ
  choosing1 : VChoice
  choosing2 : HChoice
deriving DecidableEq, Repr

/-- DiagonalMinionEnemy.update (lines 477-496); the Bool is whether the
final hits_player check fires game_over_lose. -/
def diagonalUpdate (st : DiagMinionState) (px py : ℚ) :
    DiagMinionState × Bool :=
  let sp := st.speed + 2/5
  let y := match st.choosing1 with
    | .up => st.y + sp
    | .down => st.y - sp
  let x := match st.choosing2 with
    | .right => st.x + sp
    | .left => st.x - sp
  ({ st with x := x, y := y, speed := flipY y (flipX x sp) },
   hits_player x y st.size px py)

structure StraightMinionState where
  x : ℚ
  y : ℚ
  speed : ℚ
  size : ℚ
  choosing : DirChoice
deriving DecidableEq, Repr

/-- StraightMinionEnemy.update (lines 524-543): movement steps by
math.floor(speed) on a single axis; the boundary blocks negate the
un-floored speed. -/
def straightUpdate (st : StraightMinionState) (px py : ℚ) :
    StraightMinionState × Bool :=
  let sp := st.speed + 2/5
  let step : ℚ := (⌊sp⌋ : ℤ)
  let x := match st.choosing with
    | .right => st.x + step
    | .left => st.x - step
    | _ => st.x
  let y := match st.choosing with
    | .up => st.y + step
    | .down => st.y - step
    | _ => st.y
  ({ st with x := x, y := y, speed := flipY y (flipX x sp) },
   hits_player x y st.size px py)

/-! ## AroundHomeEnemy (src/turtle_adventure.py lines 355-416)

The patroller starts 50 units up-left of Home and alternates x-phases
and y-phases in steps of 3, switching phase when its per-axis counter
passes 100 or 0.  Its final hits_player check does not alter the
position, so the movement is modelled on its own.  All coordinates the
code produces here are integers. -/

structure AroundState where
  x : ℤ
  y : ℤ
  move_x : ℤ
  move_y : ℤ
  moving_x : Bool
  moving_y : Bool
  move_left : Bool
  move_up : Bool
deriving DecidableEq, Repr

/-- AroundHomeEnemy.__init__ (lines 360-373), given Home's position. -/
def aroundInit (hx hy : ℤ) : AroundState :=
  { x := hx - 50, y := hy - 50, move_x := 0, move_y := 0,
    moving_x := true, moving_y := false, move_left := true, move_up := true }

/-- AroundHomeEnemy.update (lines 378-408), movement and phase logic. -/
def aroundUpdate (s : AroundState) : AroundState :=
  if s.moving_x then
    if s.move_left = false then
      let x := s.x + 3
      let mx := s.move_x + 3
      if mx ≥ 100 then
        { s with
          x := x
          move_x := mx
          moving_x := false
          moving_y := true
          move_left := true }
      else
        { s with x := x, move_x := mx }
    else
      let x := s.x - 3
      let mx := s.move_x - 3
      if mx ≤ 0 then
        { s with
          x := x
          move_x := mx
          moving_x := false
          moving_y := true
          move_left := false }
      else
        { s with x := x, move_x := mx }
  else
    if s.move_up = false then
      let y := s.y + 3
      let my := s.move_y + 3
      if my ≥ 100 then
        { s with
          y := y
          move_y := my
          moving_y := false
          moving_x := true
          move_up := true }
      else
        { s with y := y, move_y := my }
    else
      let y := s.y - 3
      let my := s.move_y - 3
      if my ≤ 0 then
        { s with
          y := y
          move_y := my
          moving_y := false
          moving_x := true
          move_up := false }
      else
        { s with y := y, move_y := my }

/-- Run the patroller for n updates. -/
def aroundRun : ℕ → AroundState → AroundState
  | 0, s => s
  | n + 1, s => aroundRun n (aroundUpdate s)

/-- Translating the patroller's position (leaving its phase state alone). -/
def aroundShift (tx ty : ℤ) (s : AroundState) : AroundState :=
  { s with x := s.x + tx, y := s.y + ty }

/-! ## EnemyGenerator (src/turtle_adventure.py lines 558-617) and
TurtleAdventureGame registration (lines 655-660)

Random draws are supplied by an oracle r : ℕ → ℤ; randint lo hi clamps
the oracle value into [lo, hi], modelling random.randint's contract that
the result lies in that inclusive range.  A firing of create_enemy is
modelled as the ordered list of enemies it constructs (kind and spawn
position) together with the delay of the after() call that re-arms it;
random.choice draws made inside the minion constructors do not affect
kinds or positions and are not recorded. -/

inductive EnemyKind where
  | shaking
  | pursuit
  | aroundHome
  | summon
  | diagonalMinion
  | straightMinion
deriving DecidableEq, Repr

structure Spawned where
  kind : EnemyKind
  x : ℤ
  y : ℤ
deriving DecidableEq, Repr

/-- random.randint lo hi with oracle value v: some integer in
[lo, hi] (for lo ≤ hi). -/
def randint (lo hi v : ℤ) : ℤ := max lo (min hi v)

/-- EnemyGenerator.create_summon (lines 609-617): one pink diagonal
minion and one pink straight minion, each jittered within ±10 of the
given anchor; k indexes into the oracle. -/
def create_summon (x y : ℤ) (r : ℕ → ℤ) (k : ℕ) : List Spawned :=
  [ ⟨.diagonalMinion, randint (x-10) (x+10) (r k),
      randint (y-10) (y+10) (r (k+1))⟩,
    ⟨.straightMinion, randint (x-10) (x+10) (r (k+2)),
      randint (y-10) (y+10) (r (k+3))⟩ ]

/-- The summoner's spawn position drawn in create_enemy (lines 602-603). -/
def summonSpawnPos (r : ℕ → ℤ) : ℤ × ℤ :=
  (randint 200 800 (r 4), randint 0 400 (r 5))

/-- EnemyGenerator.create_enemy (lines 585-607), given Home's position
(hx, hy) and the oracle: the list of enemies constructed in order, and
the 3000 ms delay with which the generator re-arms itself (line 607). -/
def create_enemy (hx hy : ℤ) (r : ℕ → ℤ) : List Spawned × ℕ :=
  let sx := (summonSpawnPos r).1
  let sy := (summonSpawnPos r).2
  ([ ⟨.shaking, randint 200 800 (r 0), randint 0 400 (r 1)⟩,
     ⟨.pursuit, randint 200 800 (r 2), randint 0 400 (r 3)⟩,
     ⟨.aroundHome, hx - 50, hy - 50⟩,
     ⟨.summon, sx, sy⟩ ]
   ++ (List.range 6).flatMap (fun i => create_summon sx sy r (6 + 4*i)),
   3000)

/-- The delay of the after() call in EnemyGenerator.__init__ (line 569). -/
def initialDelay : ℕ := 100

/-- The registration state of TurtleAdventureGame: the shared entity
container (elements, via GameElement registration) and the session's
enemies list. -/
structure GameReg where
  elements : List Spawned
  enemies : List Spawned
deriving DecidableEq, Repr

/-- Game.add_element: registers with the shared entity container only. -/
def add_element (g : GameReg) (e : Spawned) : GameReg :=
  { g with elements := g.elements ++ [e] }

/-- TurtleAdventureGame.add_enemy (lines 655-660): appends to the
enemies list, then registers with the container. -/
def add_enemy (g : GameReg) (e : Spawned) : GameReg :=
  { g with enemies := g.enemies ++ [e]
           elements := g.elements ++ [e] }

/-- The registrations performed during one firing of create_enemy: every
constructed enemy is passed to self.game.add_element (lines 592, 596,
600, 604, 613, 617); add_enemy is never called. -/
def create_enemy_register (hx hy : ℤ) (r : ℕ → ℤ) (g : GameReg) : GameReg :=
  ((create_enemy hx hy r).1).foldl add_element g

/-! ## Session termination (src/turtle_adventure.py lines 662-684)

game_over_win and game_over_lose call self.stop() and draw a text
banner.  stop() and the frame loop live in the repository's gamelib
module, which is not under src/, so they are modelled from the spec. -/

structure SessionState where
  running : Bool
  player : ℚ × ℚ
  enemies : List (ℚ × ℚ)
  banners : ℕ
deriving DecidableEq, Repr

/-- Modelled from the spec: gamelib's Game.stop is not under src/;
per the spec, gameOverWin/gameOverLose "halt the per-frame
update/render cycle", so stop clears the running flag and touches
nothing else. -/
def stop (s : SessionState) : SessionState := { s with running := false }

/-- The positions the terminal transitions must not mutate. -/
def positionsOf (s : SessionState) : (ℚ × ℚ) × List (ℚ × ℚ) :=
  (s.player, s.enemies)

/-- TurtleAdventureGame.game_over_win (lines 662-672): stop the game and
render a You Win text banner. -/
def game_over_win (s : SessionState) : SessionState :=
  let s := stop s
  { s with banners := s.banners + 1 }

/-- TurtleAdventureGame.game_over_lose (lines 674-684): stop the game
and render a You Lose text banner. -/
def game_over_lose (s : SessionState) : SessionState :=
  let s := stop s
  { s with banners := s.banners + 1 }

/-- Modelled from the spec: the frame loop lives in gamelib, not under
src/; per the spec, the container "drives their update/render calls
once per frame" and "reaching a terminal state must stop further
ticking ... pending timer callbacks, if any fire after termination,
must be no-ops", so one frame tick applies the per-frame entity
stepping only while the session is running. -/
def tick (step : SessionState → SessionState) (s : SessionState) :
    SessionState :=
  if s.running then step s else s

/-! ## Helper lemmas -/

lemma flipX_out (x sp : ℚ) (h : x ≥ 800 ∨ x ≤ 0) : flipX x sp = -sp := by
  rcases h with h | h
  · simp [flipX, h]
  · unfold flipX
    rcases le_or_lt 800 x with h8 | h8
    · simp [h8]
    · simp [h, not_le.mpr h8]

lemma flipX_in (x sp : ℚ) (h0 : 0 < x) (h8 : x < 800) : flipX x sp = sp := by
  simp [flipX, not_le.mpr h0, not_le.mpr h8]

lemma flipY_out (y sp : ℚ) (h : y ≥ 500 ∨ y ≤ 0) : flipY y sp = -sp := by
  rcases h with h | h
  · simp [flipY, h]
  · unfold flipY
    rcases le_or_lt 500 y with h5 | h5
    · simp [h5]
    · simp [h, not_le.mpr h5]

lemma flipY_in (y sp : ℚ) (h0 : 0 < y) (h5 : y < 500) : flipY y sp = sp := by
  simp [flipY, not_le.mpr h0, not_le.mpr h5]

lemma aroundUpdate_shift (tx ty : ℤ) (s : AroundState) :
    aroundUpdate (aroundShift tx ty s) = aroundShift tx ty (aroundUpdate s) := by
  cases s with
  | mk x y mx my movx movy ml mu =>
    simp only [aroundUpdate, aroundShift]
    split_ifs <;> simp <;> omega

lemma aroundRun_shift (n : ℕ) (tx ty : ℤ) (s : AroundState) :
    aroundRun n (aroundShift tx ty s) = aroundShift tx ty (aroundRun n s) := by
  induction n generalizing s with
  | zero => rfl
  | succ n ih =>
    simp only [aroundRun, aroundUpdate_shift]
    exact ih (aroundUpdate s)

lemma randint_mem (lo hi v : ℤ) (h : lo ≤ hi) :
    lo ≤ randint lo hi v ∧ randint lo hi v ≤ hi := by
  unfold randint
  constructor
  · exact le_max_left _ _
  · exact max_le h (min_le_left _ _)

lemma create_summon_near (x y : ℤ) (r : ℕ → ℤ) (k : ℕ) :
    ∀ e ∈ create_summon x y r k,
      x - 10 ≤ e.x ∧ e.x ≤ x + 10 ∧ y - 10 ≤ e.y ∧ e.y ≤ y + 10 := by
  intro e he
  have hx : (x:ℤ) - 10 ≤ x + 10 := by omega
  have hy : (y:ℤ) - 10 ≤ y + 10 := by omega
  simp only [create_summon, List.mem_cons, List.not_mem_nil, or_false] at he
  rcases he with rfl | rfl
  · exact ⟨(randint_mem _ _ _ hx).1, (randint_mem _ _ _ hx).2,
      (randint_mem _ _ _ hy).1, (randint_mem _ _ _ hy).2⟩
  · exact ⟨(randint_mem _ _ _ hx).1, (randint_mem _ _ _ hx).2,
      (randint_mem _ _ _ hy).1, (randint_mem _ _ _ hy).2⟩

lemma foldl_add_element_enemies (l : List Spawned) (g : GameReg) :
    (l.foldl add_element g).enemies = g.enemies := by
  induction l generalizing g with
  | nil => rfl
  | cons e l ih => simpa [List.foldl, add_element] using ih (add_element g e)

lemma dist_eval (px py qx qy d : ℝ) (hd : 0 ≤ d)
    (h : (qx - px)^2 + (qy - py)^2 = d^2) : dist px py qx qy = d := by
  rw [dist, h, Real.sqrt_sq hd]

lemma homeContains_C5 :
    homeContains gameC5.hx gameC5.hy gameC5.hsize gameC5.px gameC5.py := by
  simp only [homeContains, gameC5]
  norm_num

lemma dist_C5a : dist 700 250 780 250 = 80 :=
  dist_eval _ _ _ _ _ (by norm_num) (by norm_num)

lemma dist_C5b : dist 705 250 780 250 = 75 :=
  dist_eval _ _ _ _ _ (by norm_num) (by norm_num)

lemma forward_C5 : forwardTowards 700 250 780 250 5 = (705, 250) := by
  rw [forwardTowards, if_neg (by rw [dist_C5a]; norm_num)]
  rw [dist_C5a]
  norm_num

lemma playerUpdate_C5 :
    playerUpdate gameC5 = ⟨705, 250, 5, 780, 250, true, 700, 250, 20, true⟩ := by
  unfold playerUpdate
  rw [if_pos homeContains_C5]
  simp only [gameC5, if_true]
  simp only [forward_C5]
  norm_num [dist_C5b]

lemma dist_C6a : dist 100 100 100 100 = 0 :=
  dist_eval _ _ _ _ _ le_rfl (by norm_num)

lemma dist_C6b : dist 105 100 100 100 = 5 :=
  dist_eval _ _ _ _ _ (by norm_num) (by norm_num)

lemma forward_C6 : forwardTowards 100 100 100 100 5 = (105, 100) := by
  rw [forwardTowards, if_pos dist_C6a]
  norm_num

lemma notHome_C6 :
    ¬ homeContains gameC6.hx gameC6.hy gameC6.hsize gameC6.px gameC6.py := by
  simp only [homeContains, gameC6]
  intro h
  norm_num at h

lemma playerUpdate_C6 :
    playerUpdate gameC6 = ⟨105, 100, 5, 100, 100, true, 700, 250, 20, false⟩ := by
  unfold playerUpdate
  rw [if_neg notHome_C6]
  simp only [gameC6, if_true]
  simp only [forward_C6]
  norm_num [dist_C6b]

/-! ## The claims -/

/-- Claim C1: hits_player is true iff the player's point lies strictly
inside the enemy's axis-aligned square of side size centered on the
enemy's position, and a point exactly on the boundary (at distance
size/2 on either axis) yields false. -/
theorem C1_hits_player_strict_box (ex ey size px py : ℚ) :
    (hits_player ex ey size px py = true
      ↔ (ex - size/2 < px ∧ px < ex + size/2
          ∧ ey - size/2 < py ∧ py < ey + size/2))
    ∧ hits_player ex ey size (ex - size/2) py = false
    ∧ hits_player ex ey size (ex + size/2) py = false
    ∧ hits_player ex ey size px (ey - size/2) = false
    ∧ hits_player ex ey size px (ey + size/2) = false := by
  refine ⟨?_, ?_, ?_, ?_, ?_⟩
  · simp [hits_player, and_assoc]
  · simp [hits_player]
  · simp [hits_player]
  · simp [hits_player]
  · simp [hits_player]

/-- Claim C2 (counterexample): with every random draw answered by 300
and Home at (700, 250), one firing of create_enemy yields twelve
minions, not six. -/
theorem C2_counterexample_twelve_minions :
    ((create_enemy 700 250 (fun _ => 300)).1.filter
      (fun e => e.kind == .diagonalMinion || e.kind == .straightMinion)).length = 12
    ∧ ((create_enemy 700 250 (fun _ => 300)).1.filter
      (fun e => e.kind == .diagonalMinion || e.kind == .straightMinion)).length ≠ 6 := by
  decide

/-- Claim C2 (amended): every firing of create_enemy constructs, in
order, one random-walker, one pursuer, one patroller and one summoner,
followed by twelve minions — six diagonal and six straight, alternating
in pairs — each placed within ±10 units of the summoner's spawn
position; the scheduler first fires 100 ms after session start and each
firing re-arms it with a 3000 ms delay. -/
theorem C2_spawn_recipe (hx hy : ℤ) (r : ℕ → ℤ) :
    (create_enemy hx hy r).1.map Spawned.kind
      = [.shaking, .pursuit, .aroundHome, .summon,
         .diagonalMinion, .straightMinion, .diagonalMinion, .straightMinion,
         .diagonalMinion, .straightMinion, .diagonalMinion, .straightMinion,
         .diagonalMinion, .straightMinion, .diagonalMinion, .straightMinion]
    ∧ (create_enemy hx hy r).2 = 3000
    ∧ initialDelay = 100
    ∧ ∀ e ∈ (create_enemy hx hy r).1,
        (e.kind = .diagonalMinion ∨ e.kind = .straightMinion) →
        (summonSpawnPos r).1 - 10 ≤ e.x ∧ e.x ≤ (summonSpawnPos r).1 + 10
        ∧ (summonSpawnPos r).2 - 10 ≤ e.y ∧ e.y ≤ (summonSpawnPos r).2 + 10 := by
  refine ⟨rfl, rfl, rfl, ?_⟩
  intro e he hk
  simp only [create_enemy, List.mem_append, List.mem_cons, List.not_mem_nil,
    or_false, List.mem_flatMap, List.mem_range] at he
  rcases he with ((rfl | rfl | rfl | rfl) | ⟨i, _, hei⟩)
  · rcases hk with hk | hk <;> simp at hk
  · rcases hk with hk | hk <;> simp at hk
  · rcases hk with hk | hk <;> simp at hk
  · rcases hk with hk | hk <;> simp at hk
  · exact create_summon_near _ _ r _ e hei

/-- Witness for C2 at Home (700, 250) with every draw answered by 300:
the summoner spawns at (300, 300), the spawn list contains the diagonal
minion at (300, 300) within the ±10 window, and six straight minions. -/
theorem C2_spawn_recipe_witness :
    (⟨.diagonalMinion, 300, 300⟩ : Spawned)
        ∈ (create_enemy 700 250 (fun _ => 300)).1
    ∧ (summonSpawnPos (fun _ => 300)).1 - 10 ≤ (300:ℤ)
    ∧ ((create_enemy 700 250 (fun _ => 300)).1.map Spawned.kind).count
        .straightMinion = 6 := by
  have h := C2_spawn_recipe 700 250 (fun _ => 300)
  refine ⟨by decide,
    (h.2.2.2 ⟨.diagonalMinion, 300, 300⟩ (by decide) (Or.inl rfl)).1, ?_⟩
  rw [h.1]
  decide

/-- Claim C3 (code evaluation): the generator registers every enemy it
creates only through Game.add_element; TurtleAdventureGame.add_enemy is
never called, so after a firing the session's enemies list is exactly
what it was before — here, still empty after 16 enemies were
registered with the entity container. -/
theorem C3_enemies_list_not_populated :
    (∀ (hx hy : ℤ) (r : ℕ → ℤ) (g : GameReg),
      (create_enemy_register hx hy r g).enemies = g.enemies)
    ∧ (create_enemy_register 700 250 (fun _ => 300) ⟨[], []⟩).enemies = []
    ∧ (create_enemy_register 700 250 (fun _ => 300) ⟨[], []⟩).elements.length
        = 16 := by
  refine ⟨?_, by decide, by decide⟩
  intro hx hy r g
  exact foldl_add_element_enemies _ g

/-- Claim C4 (failing input): a summoner exactly at the player's position
moves to (x-1, y-1) instead of staying put: the x >= px branch shadows
the dead x == px branch. -/
theorem C4_summoner_equal_moves :
    summonUpdate ⟨10, 10, 1⟩ 10 10 = ⟨9, 9, 1⟩ := by
  simp [summonUpdate]
  norm_num

/-- Claim C5 (counterexample): with the player at Home's center and the
waypoint active at (780, 250), one update signals the win and still
moves the player (px becomes 705 ≠ 700) — Player.update has no early
return, so the waypoint movement is not suppressed on the winning tick. -/
theorem C5_counterexample_moves_on_winning_tick :
    homeContains gameC5.hx gameC5.hy gameC5.hsize gameC5.px gameC5.py
    ∧ (playerUpdate gameC5).won = true
    ∧ (playerUpdate gameC5).px ≠ gameC5.px := by
  refine ⟨homeContains_C5, ?_, ?_⟩
  · rw [playerUpdate_C5]
  · rw [playerUpdate_C5]
    simp only [gameC5]
    norm_num

/-- Claim C5 (amended): one player update checks Home containment first
and signals win exactly when Home contains the player (or the win was
already signalled); independently of that check, whenever the waypoint
is active the player advances by speed along the heading toward the
waypoint — movement is not suppressed on the winning tick. -/
theorem C5_win_checked_movement_not_suppressed (g : PlayerGame)
    (h : g.wactive = true) :
    ((playerUpdate g).px, (playerUpdate g).py)
      = forwardTowards g.px g.py g.wx g.wy g.speed
    ∧ ((playerUpdate g).won = true ↔
        (homeContains g.hx g.hy g.hsize g.px g.py ∨ g.won = true)) := by
  unfold playerUpdate
  by_cases hc : homeContains g.hx g.hy g.hsize g.px g.py
  · simp only [if_pos hc, h, if_true]
    constructor
    · split_ifs <;> simp
    · split_ifs <;> simp [hc]
  · simp only [if_neg hc, h, if_true]
    constructor
    · split_ifs <;> simp
    · split_ifs <;> simp [hc]

/-- Witness for C5 (amended) on the concrete winning-tick state: the
player at Home's center with the waypoint active at (780, 250) ends the
update at (705, 250) with the win signalled. -/
theorem C5_win_checked_movement_not_suppressed_witness :
    ((playerUpdate gameC5).px, (playerUpdate gameC5).py) = (705, 250)
    ∧ (playerUpdate gameC5).won = true := by
  have h := C5_win_checked_movement_not_suppressed gameC5 rfl
  constructor
  · rw [h.1]
    simp only [gameC5]
    exact forward_C5
  · exact h.2.mpr (Or.inl homeContains_C5)

/-- Claim C6 (counterexample): a player exactly at the active waypoint
(distance 0 ≤ speed, Home not containing it) steps 5 units along
heading 0 to (105, 100), where the distance to the waypoint equals the
speed, so the deactivation test distance < speed fails and the waypoint
stays active. -/
theorem C6_counterexample_zero_distance :
    dist gameC6.px gameC6.py gameC6.wx gameC6.wy ≤ gameC6.speed
    ∧ ¬ homeContains gameC6.hx gameC6.hy gameC6.hsize gameC6.px gameC6.py
    ∧ (playerUpdate gameC6).wactive = true := by
  refine ⟨?_, notHome_C6, ?_⟩
  · show dist 100 100 100 100 ≤ (5:ℝ)
    rw [dist_C6a]
    norm_num
  · rw [playerUpdate_C6]

/-- Claim C6 (amended): for every active waypoint W and player position
P with 0 < distance(P, W) ≤ speed (and Home not containing P), after one
update the waypoint is inactive and the player's new position lies on
the ray from the old P toward W. -/
theorem C6_waypoint_arrival (g : PlayerGame)
    (hact : g.wactive = true)
    (hh : ¬ homeContains g.hx g.hy g.hsize g.px g.py)
    (hd0 : 0 < dist g.px g.py g.wx g.wy)
    (hds : dist g.px g.py g.wx g.wy ≤ g.speed) :
    (playerUpdate g).wactive = false
    ∧ ∃ t : ℝ, 0 ≤ t
        ∧ (playerUpdate g).px = g.px + t * (g.wx - g.px)
        ∧ (playerUpdate g).py = g.py + t * (g.wy - g.py) := by
  set d := dist g.px g.py g.wx g.wy with hdd
  have hne : dist g.px g.py g.wx g.wy ≠ 0 := by
    rw [← hdd]
    exact ne_of_gt hd0
  have hS : 0 ≤ (g.wx - g.px)^2 + (g.wy - g.py)^2 := by positivity
  have hd2 : (g.wx - g.px)^2 + (g.wy - g.py)^2 = d^2 := by
    rw [hdd, dist, Real.sq_sqrt hS]
  have hfwd : forwardTowards g.px g.py g.wx g.wy g.speed
      = (g.px + g.speed * (g.wx - g.px) / d,
         g.py + g.speed * (g.wy - g.py) / d) := by
    rw [forwardTowards, if_neg hne]
  have hdne : d ≠ 0 := ne_of_gt hd0
  have hsq : (g.wx - (g.px + g.speed * (g.wx - g.px) / d))^2
      + (g.wy - (g.py + g.speed * (g.wy - g.py) / d))^2 = (g.speed - d)^2 := by
    have h1 : g.wx - (g.px + g.speed * (g.wx - g.px) / d)
        = (g.wx - g.px) * ((d - g.speed) / d) := by
      field_simp
      ring
    have h2 : g.wy - (g.py + g.speed * (g.wy - g.py) / d)
        = (g.wy - g.py) * ((d - g.speed) / d) := by
      field_simp
      ring
    rw [h1, h2]
    have h3 : ((g.wx - g.px) * ((d - g.speed) / d))^2
        + ((g.wy - g.py) * ((d - g.speed) / d))^2
        = ((g.wx - g.px)^2 + (g.wy - g.py)^2) * ((d - g.speed) / d)^2 := by
      ring
    rw [h3, hd2]
    field_simp
    ring
  have hdistp : dist (g.px + g.speed * (g.wx - g.px) / d)
      (g.py + g.speed * (g.wy - g.py) / d) g.wx g.wy = g.speed - d := by
    apply dist_eval
    · linarith
    · exact hsq
  unfold playerUpdate
  rw [if_neg hh]
  simp only [hact, if_true]
  simp only [← hdd, hfwd]
  rw [if_pos (by rw [hdistp]; linarith)]
  refine ⟨rfl, g.speed / d, ?_, ?_, ?_⟩
  · exact div_nonneg (by linarith) (le_of_lt hd0)
  · field_simp
  · field_simp

/-- Witness for C6 (amended): the player at (777, 250) with the waypoint
active at (780, 250) — distance 3, speed 5, Home elsewhere — ends the
update with the waypoint inactive and on the ray toward it. -/
theorem C6_waypoint_arrival_witness :
    (playerUpdate gameC6w).wactive = false
    ∧ ∃ t : ℝ, 0 ≤ t
        ∧ (playerUpdate gameC6w).px = gameC6w.px + t * (gameC6w.wx - gameC6w.px)
        ∧ (playerUpdate gameC6w).py = gameC6w.py + t * (gameC6w.wy - gameC6w.py) := by
  have hd : dist gameC6w.px gameC6w.py gameC6w.wx gameC6w.wy = 3 := by
    show dist 777 250 780 250 = 3
    exact dist_eval _ _ _ _ _ (by norm_num) (by norm_num)
  refine C6_waypoint_arrival gameC6w rfl ?_ ?_ ?_
  · show ¬ homeContains 700 250 20 777 250
    simp only [homeContains]
    intro h
    norm_num at h
  · rw [hd]
    norm_num
  · rw [hd]
    show (3:ℝ) ≤ 5
    norm_num

/-- Claim C7 (counterexample), at the reference Home position (700, 250):
the very first update ends the first x-phase after a single 3-unit step
(x = 647, phase counter -3, not a 100-unit side and not a transition at
exactly 0 or 100), and since every update displaces the patroller by
exactly 3 units, 400 units of cumulative displacement falls between
updates 133 and 134, at neither of which the patroller is back at its
starting offset (650, 200). -/
theorem C7_counterexample_patrol :
    (aroundRun 1 (aroundInit 700 250)).moving_x = false
    ∧ (aroundRun 1 (aroundInit 700 250)).x = 647
    ∧ (aroundRun 1 (aroundInit 700 250)).move_x = -3
    ∧ (aroundRun 133 (aroundInit 700 250)).y ≠ 200
    ∧ (aroundRun 134 (aroundInit 700 250)).y ≠ 200 := by
  decide

/-- Claim C7 (amended): the patroller cycles through alternating x- and
y-phases in 3-unit steps, switching phase when the per-axis counter
passes 100 or 0 (overshooting to 102 or -3 rather than stopping exactly
there); run from its initial state for 140 updates — 420 units of
cumulative displacement — it returns to its starting offset exactly,
for every Home position. -/
theorem C7_patrol_closure (hx hy : ℤ) :
    (aroundRun 140 (aroundInit hx hy)).x = hx - 50
    ∧ (aroundRun 140 (aroundInit hx hy)).y = hy - 50 := by
  have h1 : aroundInit hx hy = aroundShift hx hy (aroundInit 0 0) := by
    simp [aroundInit, aroundShift]
    omega
  have h2 : (aroundRun 140 (aroundInit 0 0)).x = -50
      ∧ (aroundRun 140 (aroundInit 0 0)).y = -50 := by decide
  rw [h1, aroundRun_shift]
  simp [aroundShift, h2.1, h2.2]
  omega

/-- Claim C8 (counterexample): a diagonal minion starting at
x = 799.8 < 800 with speed 2, moving up-right far from the player,
crosses the x = 800 bound once (frame 1: x = 802.2, speed flipped to
-2.4) and remains out of bounds on frame 2 without re-crossing
(x = 800.2 ≥ 800), yet frame 2 flips the sign again, ending with
positive speed 2. -/
theorem C8_counterexample_second_flip :
    (3999/5 : ℚ) < 800
    ∧ (diagonalUpdate ⟨3999/5, 250, 2, 10, .up, .right⟩ 0 0).1.x ≥ 800
    ∧ (diagonalUpdate ⟨3999/5, 250, 2, 10, .up, .right⟩ 0 0).1.speed < 0
    ∧ (diagonalUpdate (diagonalUpdate ⟨3999/5, 250, 2, 10, .up, .right⟩ 0 0).1
        0 0).1.x ≥ 800
    ∧ 0 < (diagonalUpdate (diagonalUpdate ⟨3999/5, 250, 2, 10, .up, .right⟩ 0 0).1
        0 0).1.speed := by
  norm_num [diagonalUpdate, flipX, flipY]

/-- Claim C8 (amended): the speed sign is flipped on every frame whose
post-movement position violates a world bound — the x bound (x ≥ 800 or
x ≤ 0) with y strictly inside (0, 500), or the y bound (y ≥ 500 or
y ≤ 0) with x strictly inside (0, 800) — not only at the crossing
event: in either case the update negates the incremented speed, for
both minion kinds, regardless of whether the previous frame was already
out of bounds. -/
theorem C8_flip_every_out_of_bounds_frame
    (d : DiagMinionState) (s : StraightMinionState) (px py qx qy : ℚ) :
    (((diagonalUpdate d px py).1.x ≥ 800 ∨ (diagonalUpdate d px py).1.x ≤ 0) →
     0 < (diagonalUpdate d px py).1.y → (diagonalUpdate d px py).1.y < 500 →
     (diagonalUpdate d px py).1.speed = -(d.speed + 2/5))
    ∧
    (0 < (diagonalUpdate d px py).1.x → (diagonalUpdate d px py).1.x < 800 →
     ((diagonalUpdate d px py).1.y ≥ 500 ∨ (diagonalUpdate d px py).1.y ≤ 0) →
     (diagonalUpdate d px py).1.speed = -(d.speed + 2/5))
    ∧
    (((straightUpdate s qx qy).1.x ≥ 800 ∨ (straightUpdate s qx qy).1.x ≤ 0) →
     0 < (straightUpdate s qx qy).1.y → (straightUpdate s qx qy).1.y < 500 →
     (straightUpdate s qx qy).1.speed = -(s.speed + 2/5))
    ∧
    (0 < (straightUpdate s qx qy).1.x → (straightUpdate s qx qy).1.x < 800 →
     ((straightUpdate s qx qy).1.y ≥ 500 ∨ (straightUpdate s qx qy).1.y ≤ 0) →
     (straightUpdate s qx qy).1.speed = -(s.speed + 2/5)) := by
  refine ⟨?_, ?_, ?_, ?_⟩
  · intro hx hy0 hy5
    simp only [diagonalUpdate] at hx hy0 hy5 ⊢
    rw [flipX_out _ _ hx, flipY_in _ _ hy0 hy5]
  · intro hx0 hx8 hy
    simp only [diagonalUpdate] at hx0 hx8 hy ⊢
    rw [flipX_in _ _ hx0 hx8, flipY_out _ _ hy]
  · intro hx hy0 hy5
    simp only [straightUpdate] at hx hy0 hy5 ⊢
    rw [flipX_out _ _ hx, flipY_in _ _ hy0 hy5]
  · intro hx0 hx8 hy
    simp only [straightUpdate] at hx0 hx8 hy ⊢
    rw [flipX_in _ _ hx0 hx8, flipY_out _ _ hy]

/-- Witness for C8 (amended) at concrete inputs, one per violated bound
and minion kind: a diagonal minion at (799, 250) with speed 2 moving
up-right leaves through the x bound (ends at (801.4, 252.4)) and a
diagonal minion at (400, 499) leaves through the y bound (ends at
(402.4, 501.4)); a straight minion at (799, 250) moving right leaves
through the x bound (ends at (801, 250)) and a straight minion at
(400, 499) moving up leaves through the y bound (ends at (400, 501)).
All four end with speed -2.4. -/
theorem C8_flip_every_out_of_bounds_frame_witness :
    (diagonalUpdate ⟨799, 250, 2, 10, .up, .right⟩ 0 0).1.speed = -(2 + 2/5)
    ∧ (diagonalUpdate ⟨400, 499, 2, 10, .up, .right⟩ 0 0).1.speed = -(2 + 2/5)
    ∧ (straightUpdate ⟨799, 250, 2, 10, .right⟩ 0 0).1.speed = -(2 + 2/5)
    ∧ (straightUpdate ⟨400, 499, 2, 10, .up⟩ 0 0).1.speed = -(2 + 2/5) := by
  have h1 := C8_flip_every_out_of_bounds_frame
    ⟨799, 250, 2, 10, .up, .right⟩ ⟨799, 250, 2, 10, .right⟩ 0 0 0 0
  have h2 := C8_flip_every_out_of_bounds_frame
    ⟨400, 499, 2, 10, .up, .right⟩ ⟨400, 499, 2, 10, .up⟩ 0 0 0 0
  refine ⟨?_, ?_, ?_, ?_⟩
  · exact h1.1 (by left; norm_num [diagonalUpdate])
      (by norm_num [diagonalUpdate]) (by norm_num [diagonalUpdate])
  · exact h2.2.1 (by norm_num [diagonalUpdate])
      (by norm_num [diagonalUpdate]) (by left; norm_num [diagonalUpdate])
  · exact h1.2.2.1 (by left; norm_num [straightUpdate])
      (by norm_num [straightUpdate]) (by norm_num [straightUpdate])
  · exact h2.2.2.2 (by norm_num [straightUpdate])
      (by norm_num [straightUpdate]) (by left; norm_num [straightUpdate])

/-- Claim C9: game_over_win and game_over_lose are idempotent terminal
transitions: after either is invoked, a second invocation of either, and
any number of subsequent frame ticks (whatever the per-frame stepping
does), leave the player's position and every enemy's position unchanged. -/
theorem C9_terminal_idempotence (step : SessionState → SessionState)
    (s : SessionState) (n : ℕ) :
    (positionsOf (game_over_win (game_over_win s))
        = positionsOf (game_over_win s)
      ∧ positionsOf (game_over_lose (game_over_win s))
        = positionsOf (game_over_win s)
      ∧ positionsOf ((tick step)^[n] (game_over_win s))
        = positionsOf (game_over_win s))
    ∧ (positionsOf (game_over_win (game_over_lose s))
        = positionsOf (game_over_lose s)
      ∧ positionsOf (game_over_lose (game_over_lose s))
        = positionsOf (game_over_lose s)
      ∧ positionsOf ((tick step)^[n] (game_over_lose s))
        = positionsOf (game_over_lose s)) := by
  have hfix : ∀ u : SessionState, u.running = false →
      (tick step)^[n] u = u := by
    intro u hu
    exact Function.iterate_fixed (by simp [tick, hu]) n
  refine ⟨⟨rfl, rfl, ?_⟩, ⟨rfl, rfl, ?_⟩⟩
  · rw [hfix _ (by simp [game_over_win, stop])]
  · rw [hfix _ (by simp [game_over_lose, stop])]

/-- Claim C10: when, after the frame's movement, both an x-boundary
condition (x ≥ 800 or x ≤ 0) and a y-boundary condition (y ≥ 500 or
y ≤ 0) hold, the update negates the speed twice, so the speed ends the
update equal to the incremented speed (its original sign), for both the
diagonal and the straight minion. -/
theorem C10_corner_double_negation
    (d : DiagMinionState) (s : StraightMinionState) (px py qx qy : ℚ) :
    (((diagonalUpdate d px py).1.x ≥ 800 ∨ (diagonalUpdate d px py).1.x ≤ 0) →
     ((diagonalUpdate d px py).1.y ≥ 500 ∨ (diagonalUpdate d px py).1.y ≤ 0) →
     (diagonalUpdate d px py).1.speed = d.speed + 2/5)
    ∧
    (((straightUpdate s qx qy).1.x ≥ 800 ∨ (straightUpdate s qx qy).1.x ≤ 0) →
     ((straightUpdate s qx qy).1.y ≥ 500 ∨ (straightUpdate s qx qy).1.y ≤ 0) →
     (straightUpdate s qx qy).1.speed = s.speed + 2/5) := by
  constructor
  · intro hx hy
    simp only [diagonalUpdate] at hx hy ⊢
    rw [flipX_out _ _ hx, flipY_out _ _ hy, neg_neg]
  · intro hx hy
    simp only [straightUpdate] at hx hy ⊢
    rw [flipX_out _ _ hx, flipY_out _ _ hy, neg_neg]

/-- Witness for C10 at a concrete corner crossing: a diagonal minion at
(799, 499) with speed 2 moving up-right ends at (801.4, 501.4) with
speed +2.4, and a straight minion at (799, 505) moving right ends at
(801, 505) with speed +2.4. -/
theorem C10_corner_double_negation_witness :
    (diagonalUpdate ⟨799, 499, 2, 10, .up, .right⟩ 0 0).1.speed = 2 + 2/5
    ∧ (straightUpdate ⟨799, 505, 2, 10, .right⟩ 0 0).1.speed = 2 + 2/5 := by
  have h := C10_corner_double_negation
    ⟨799, 499, 2, 10, .up, .right⟩ ⟨799, 505, 2, 10, .right⟩ 0 0 0 0
  constructor
  · exact h.1 (by left; norm_num [diagonalUpdate])
      (by left; norm_num [diagonalUpdate])
  · exact h.2 (by left; norm_num [straightUpdate])
      (by left; norm_num [straightUpdate])

end TurtleAdventure
